import Mathlib

/-!
Verification development for the HTTP connector (`http_connector.py`).

The Python source is shallowly embedded below.  External collaborators
(the `requests` library, `json.loads`, `xmltodict.parse`, `BeautifulSoup`,
`urllib.parse.unquote_plus`, `socket.gethostbyname`) are modelled as
explicit function parameters; everything the connector itself computes is
translated directly from the source.  The connector is modelled as running
under Python 3, so `_handle_py_ver_compat_for_input_str` is the identity
function (the `input_str and self._python_version < 3` guard is false).
-/

namespace HttpApp

/-! ## Python string semantics -/

/-- Decides whether the first list of characters is an initial segment of
the second.  Helper for the substring test. -/
def charsLeadSeg : List Char → List Char → Bool
  | [], _ => true
  | _ :: _, [] => false
  | a :: p, b :: s => a = b && charsLeadSeg p s

/-- Decides whether the first list of characters occurs contiguously inside
the second. -/
def charsHasSub (p : List Char) : List Char → Bool
  | [] => p.isEmpty
  | c :: t => charsLeadSeg p (c :: t) || charsHasSub p t

/-- Python membership test `pat in s` on strings: a case-sensitive
contiguous substring match. -/
def pyIn (pat s : String) : Bool := charsHasSub pat.data s.data

/-- Python `s.startswith(pre)`. -/
def pyStartsWith (s pre : String) : Bool := charsLeadSeg pre.data s.data

/-- Python `.replace('{', '{{').replace('}', '}}')`, as applied to response
bodies: both patterns are single characters and the first replacement
introduces no `\x7d`, so the sequential replacements equal one per-character
expansion, doubling every literal brace so the text survives later template
formatting. -/
def escapeBraces (s : String) : String :=
  String.mk (s.data.foldr (fun c acc =>
    if c = '\x7b' then '\x7b' :: '\x7b' :: acc
    else if c = '\x7d' then '\x7d' :: '\x7d' :: acc
    else c :: acc) [])

/-- Python `str.strip()` whitespace predicate (ASCII whitespace). -/
def pyIsSpace (c : Char) : Bool :=
  c = ' ' || c = '\t' || c = '\n' || c = '\r' || c = '\x0b' || c = '\x0c'

/-- Python `str.strip()` on a character list. -/
def trimChars (l : List Char) : List Char :=
  ((l.dropWhile pyIsSpace).reverse.dropWhile pyIsSpace).reverse

/-- Python `s.split('\n')` on a character list: the empty string yields one
empty piece, every newline starts a new piece. -/
def splitNl : List Char → List (List Char)
  | [] => [[]]
  | c :: t =>
      let r := splitNl t
      if c = '\n' then [] :: r
      else
        match r with
        | h :: t2 => (c :: h) :: t2
        | [] => [[c]]

/-- Python `'\n'.join(...)` on character lists. -/
def joinNl : List (List Char) → List Char
  | [] => []
  | [l] => l
  | l :: t => l ++ '\n' :: joinNl t

/-- The line cleanup in `_process_html_response` (lines 175-177): split on
newlines, strip each line, drop blank lines, rejoin with newlines. -/
def cleanLines (s : String) : String :=
  String.mk (joinNl (((splitNl s.data).map trimChars).filter (fun l => !l.isEmpty)))

/-- ASCII lower-casing of one character (sufficient for header names). -/
def lowerChar (c : Char) : Char :=
  if 'A' ≤ c ∧ c ≤ 'Z' then Char.ofNat (c.toNat + 32) else c

/-- ASCII `str.lower()`. -/
def lowerStr (s : String) : String := String.mk (s.data.map lowerChar)

/-- ASCII upper-casing of one character. -/
def upperChar (c : Char) : Char :=
  if 'a' ≤ c ∧ c ≤ 'z' then Char.ofNat (c.toNat - 32) else c

/-- ASCII `str.upper()`, as applied to the method name for the result
record. -/
def upperStr (s : String) : String := String.mk (s.data.map upperChar)

/-! ## Parsed JSON values

Values produced by `json.loads` / `response.json()` / `xmltodict.parse`.
Numbers are modelled by integers (no claim exercises floats); objects are
association lists (`json.loads` never yields duplicate keys). -/

inductive Json where
  | null
  | bool (b : Bool)
  | num (n : Int)
  | str (s : String)
  | arr (elems : List Json)
  | obj (fields : List (String × Json))

/-- Python truthiness of a parsed JSON value (`if not headers: ...`). -/
def pyTruthy : Json → Bool
  | .null => false
  | .bool b => b
  | .num n => n ≠ 0
  | .str s => s ≠ ""
  | .arr l => !l.isEmpty
  | .obj l => !l.isEmpty

/-- An exception escaping a handler (uncaught by the connector itself). -/
inductive Uncaught where
  | typeError
  | nameError
  | keyError
deriving DecidableEq

/-- Python membership test `k in x` for a parsed JSON value `x`: key lookup
on a dict, element equality on a list, substring test on a string, and a
TypeError on the remaining non-container values. -/
def pyInJson (k : String) : Json → Except Uncaught Bool
  | .obj fs => .ok (fs.any (fun p => p.1 == k))
  | .arr l => .ok (l.any (fun j => match j with | .str s => s == k | _ => false))
  | .str s => .ok (pyIn k s)
  | _ => .error .typeError

/-- Python subscription `x[k]` with a string key: dict lookup (KeyError when
absent), TypeError on every other value. -/
def pyGetItem : Json → String → Except Uncaught Json
  | .obj fs, k =>
      match fs.lookup k with
      | some v => .ok v
      | none => .error .keyError
  | _, _ => .error .typeError

/-- Python subscript assignment `x[k] = v`: on a dict, replace the value of
an existing key in place or append a new binding; TypeError otherwise. -/
def pySetItem : Json → String → Json → Except Uncaught Json
  | .obj fs, k, v =>
      .ok (.obj (if fs.any (fun p => p.1 == k) then
                   fs.map (fun p => if p.1 == k then (k, v) else p)
                 else fs ++ [(k, v)]))
  | _, _, _ => .error .typeError

mutual

/-- CPython `repr()` of a parsed JSON value, as produced by `str.format` on
non-string arguments nested inside containers.  String escaping and the
quote-switching rule for strings that themselves contain a quote are not
modelled; no claim exercises them. -/
def pyRepr : Json → String
  | .null => "None"
  | .bool true => "True"
  | .bool false => "False"
  | .num n => toString n
  | .str s => "\x27" ++ s ++ "\x27"
  | .arr l => "[" ++ pyReprElems l ++ "]"
  | .obj fs => "\x7b" ++ pyReprFields fs ++ "\x7d"

/-- Comma-separated `repr()` of list elements. -/
def pyReprElems : List Json → String
  | [] => ""
  | [j] => pyRepr j
  | j :: t => pyRepr j ++ ", " ++ pyReprElems t

/-- Comma-separated `repr()` of dict entries. -/
def pyReprFields : List (String × Json) → String
  | [] => ""
  | [(k, v)] => "\x27" ++ k ++ "\x27: " ++ pyRepr v
  | (k, v) :: t => "\x27" ++ k ++ "\x27: " ++ pyRepr v ++ ", " ++ pyReprFields t

end

/-- CPython `str()` of a parsed JSON value, as used by `str.format`: a
string formats as itself, every other value as its `repr()`. -/
def pyStr : Json → String
  | .str s => s
  | j => pyRepr j

/-! ## Exceptions and the error normalizer -/

/-- A caught Python exception as observed by
`_get_error_message_from_exception`: either its tuple of positional
arguments is readable (each argument modelled by its `str()` image), or
reading `e.args` itself raises. -/
inductive PyExc where
  | mk (args : List String)
  | argsRaise

/-- The generic fallback message of `_get_error_message_from_exception`
(note the literal pipe character in the source: `and|or`). -/
def defaultErrorMsg : String :=
  "Unknown error occurred. Please check the asset configuration and|or action parameters."

/-- `_get_error_message_from_exception` (lines 63-92).  Under Python 3 the
second `try` block (`_handle_py_ver_compat_for_input_str`) is the identity
and cannot raise, so only the `e.args` inspection distinguishes cases. -/
def get_error_message_from_exception (e : PyExc) : String :=
  let p : String × String :=
    match e with
    | .argsRaise => ("Error code unavailable", defaultErrorMsg)
    | .mk [] => ("Error code unavailable", defaultErrorMsg)
    | .mk [a] => ("Error code unavailable", a)
    | .mk (a :: b :: _) => (a, b)
  "Error Code: " ++ p.1 ++ ". Error Message: " ++ p.2

/-! ## HTTP responses and classifier outcomes -/

/-- An HTTP response as the connector observes it (`requests` response
object): status code, header mapping, body text, reason phrase. -/
structure HttpResponse where
  status_code : Nat
  headers : List (String × String) := []
  text : String := ""
  reason : String := ""

/-- `r.headers.get(k, '')`: the `requests` header mapping is
case-insensitive in its keys. -/
def headerGet (hs : List (String × String)) (k : String) : String :=
  match hs.find? (fun p => lowerStr p.1 == lowerStr k) with
  | some p => p.2
  | none => ""

/-- The declared content type of a response:
`r.headers.get('Content-Type', '')`. -/
def contentTypeOf (r : HttpResponse) : String :=
  headerGet r.headers "Content-Type"

/-- `phantom.APP_SUCCESS` / `phantom.APP_ERROR`. -/
inductive Status where
  | success
  | error
deriving DecidableEq

/-- A parsed response body: a JSON-like structure (JSON and XML branches)
or plain text (HTML and plain-text branches). -/
inductive Parsed where
  | json (j : Json)
  | text (s : String)

/-- The observable outcome of one `_process_*` handler: the returned
status, the message recorded on the action result by `set_status` (if
any), and the second component of the returned `RetVal`. -/
structure ProcResult where
  ret : Status
  message : Option String
  body : Option Parsed

/-- A handler either returns a `RetVal` or raises.  When it raises after
already calling `set_status`, the message recorded before the raise is
kept for inspection. -/
inductive HandlerOut where
  | ret (res : ProcResult)
  | raised (exc : Uncaught) (messageSet : Option String)

/-- Behaviour of the `BeautifulSoup` block in `_process_html_response` on
one body text: either the whole pipeline (constructor, element extraction,
text cleanup) runs — yielding `soup.text` after the script/style/footer/nav
extraction — or it raises after the variable `soup` was bound, or the
constructor itself raises and `soup` is never bound. -/
inductive SoupOutcome where
  | parsed (soupText : String)
  | failAfterBind (soupText : String)
  | failBeforeBind

/-- The external libraries the connector calls, as pure functions of the
relevant string: `response.json()`, `xmltodict.parse`, the
`BeautifulSoup` pipeline, `urllib.parse.unquote_plus`, and `json.loads`
(used for the caller-supplied header mapping). -/
structure Libs where
  jsonParse : String → Except PyExc Json
  xmlParse : String → Except PyExc Json
  soup : String → SoupOutcome
  uq : String → String
  loads : String → Except PyExc Json

/-! ## The response handlers -/

/-- `_process_empty_reponse` (lines 159-164; the typo is the source name).
On a success status no `set_status` call happens. -/
def process_empty_reponse (r : HttpResponse) : HandlerOut :=
  if 200 ≤ r.status_code ∧ r.status_code < 400 then
    .ret { ret := .success, message := none, body := none }
  else
    .ret { ret := .error, message := some "Empty response and no information in the header", body := none }

/-- The failure message of `_process_html_response` (lines 184-186): the
template is formatted first, then every brace in the whole message is
doubled. -/
def htmlErrorMessage (code : Nat) (detail : String) : String :=
  escapeBraces ("Status Code: " ++ toString code ++ ". Data from server:\n" ++ detail ++ "\n")

/-- `_process_html_response` (lines 166-188).  The cleanup result feeds
the failure message through `unquote_plus`; both return statements read
`soup.text`, so when the `BeautifulSoup` constructor itself raised the
handler raises a NameError — in the failure-status case after `set_status`
already recorded the message (arguments evaluate left to right). -/
def process_html_response (libs : Libs) (r : HttpResponse) : HandlerOut :=
  match libs.soup r.text with
  | .parsed soupText =>
      if 200 ≤ r.status_code ∧ r.status_code < 400 then
        .ret { ret := .success, message := none, body := some (.text soupText) }
      else
        .ret { ret := .error,
               message := some (htmlErrorMessage r.status_code (libs.uq (cleanLines soupText))),
               body := some (.text soupText) }
  | .failAfterBind soupText =>
      if 200 ≤ r.status_code ∧ r.status_code < 400 then
        .ret { ret := .success, message := none, body := some (.text soupText) }
      else
        .ret { ret := .error,
               message := some (htmlErrorMessage r.status_code (libs.uq "Cannot parse error details")),
               body := some (.text soupText) }
  | .failBeforeBind =>
      if 200 ≤ r.status_code ∧ r.status_code < 400 then
        .raised .nameError none
      else
        .raised .nameError (some (htmlErrorMessage r.status_code (libs.uq "Cannot parse error details")))

/-- The shared failure template of the JSON and XML branches:
`'Error from server. Status Code: {0} Data from server: {1}'`. -/
def serverErrorMessage (code : Nat) (detail : String) : String :=
  "Error from server. Status Code: " ++ toString code ++ " Data from server: " ++ detail

/-- The error detail chosen by `_process_json_response` once an `error`
entry was extracted: the nested `message` entry when the error value is a
dict containing one, the error value itself otherwise; formatted by
`str.format`, hence through `str()`. -/
def errorDetailOf (ef : Json) : String :=
  match ef with
  | .obj efs =>
      match efs.lookup "message" with
      | some m => pyStr m
      | none => pyStr (.obj efs)
  | _ => pyStr ef

/-- `_process_json_response` (lines 190-218).  A parse failure is caught
and reported; on an error status the membership test
`'error' in resp_json` raises a TypeError for non-container parsed values
(and the subsequent subscription raises for list/string containers), and
no `set_status` was called before that point. -/
def process_json_response (libs : Libs) (r : HttpResponse) : HandlerOut :=
  match libs.jsonParse r.text with
  | .error e =>
      .ret { ret := .error,
             message := some ("Unable to parse JSON response. Error: " ++ get_error_message_from_exception e),
             body := none }
  | .ok resp_json =>
      if 200 ≤ r.status_code ∧ r.status_code < 400 then
        .ret { ret := .success, message := none, body := some (.json resp_json) }
      else
        match pyInJson "error" resp_json with
        | .error u => .raised u none
        | .ok true =>
            match pyGetItem resp_json "error" with
            | .error u => .raised u none
            | .ok ef =>
                .ret { ret := .error,
                       message := some (serverErrorMessage r.status_code (errorDetailOf ef)),
                       body := some (.json resp_json) }
        | .ok false =>
            .ret { ret := .error,
                   message := some (serverErrorMessage r.status_code (escapeBraces r.text)),
                   body := some (.json resp_json) }

/-- `_process_xml_response` (lines 220-234). -/
def process_xml_response (libs : Libs) (r : HttpResponse) : HandlerOut :=
  match libs.xmlParse r.text with
  | .error e =>
      .ret { ret := .error,
             message := some ("Unable to parse XML response. Error: " ++ get_error_message_from_exception e),
             body := none }
  | .ok resp_json =>
      if 200 ≤ r.status_code ∧ r.status_code < 400 then
        .ret { ret := .success, message := none, body := some (.json resp_json) }
      else
        .ret { ret := .error,
               message := some (serverErrorMessage r.status_code (escapeBraces r.text)),
               body := some (.json resp_json) }

/-- The final fallback of `_process_response` (lines 255-261): plain-text
handling of a non-empty body with no recognized content type. -/
def process_plaintext (r : HttpResponse) : HandlerOut :=
  if 200 ≤ r.status_code ∧ r.status_code < 400 then
    .ret { ret := .success, message := none, body := some (.text r.text) }
  else
    .ret { ret := .error,
           message := some ("Can\x27t process response from server. Status Code: " ++ toString r.status_code
                            ++ " Data from server: " ++ escapeBraces r.text),
           body := some (.text r.text) }

/-- `_process_response` (lines 236-261): the if-chain over the declared
content type, then emptiness, then the plain-text fallback. -/
def process_response (libs : Libs) (r : HttpResponse) : HandlerOut :=
  if pyIn "xml" (contentTypeOf r) then process_xml_response libs r
  else if pyIn "json" (contentTypeOf r) || pyIn "javascript" (contentTypeOf r) then
    process_json_response libs r
  else if pyIn "html" (contentTypeOf r) then process_html_response libs r
  else if r.text = "" then process_empty_reponse r
  else process_plaintext r

/-! ## Content categories (spec data model) -/

/-- The content-category enumeration of the spec, derived from the
declared content type in the priority order of the source if-chain. -/
inductive ContentCategory where
  | xml
  | json
  | html
  | empty
  | plaintext
deriving DecidableEq

/-- Branch selection of `_process_response`, expressed as a category. -/
def classifyContent (ct body : String) : ContentCategory :=
  if pyIn "xml" ct then .xml
  else if pyIn "json" ct || pyIn "javascript" ct then .json
  else if pyIn "html" ct then .html
  else if body = "" then .empty
  else .plaintext

/-- The handler attached to each content category. -/
def dispatchByCategory (libs : Libs) (r : HttpResponse) : ContentCategory → HandlerOut
  | .xml => process_xml_response libs r
  | .json => process_json_response libs r
  | .html => process_html_response libs r
  | .empty => process_empty_reponse r
  | .plaintext => process_plaintext r

/-! ## Configuration and the request dispatcher -/

/-- The asset configuration fields read by `initialize` that the dispatch
path uses.  `config.get(...)` returns `None` for absent optional keys,
modelled by `none`; Python truthiness treats `None` and the empty string
alike. -/
structure Config where
  base_url : String := ""
  token_name : String := "ph-auth-token"
  token : Option String := none
  username : Option String := none
  password : String := ""
  timeout : Option Nat := none

/-- Python truthiness of an optional string configuration value. -/
def pyTruthyOptStr : Option String → Bool
  | none => false
  | some s => s ≠ ""

/-- One HTTP request as handed to `requests.<method>(...)`. -/
structure SentRequest where
  url : String
  method : String
  auth : Option (String × String)
  data : Option String
  verify : Bool
  headers : Option Json
  timeout : Option Nat

/-- One record appended by `action_result.add_data` (lines 298-305). -/
structure RespData where
  method : String
  location : String
  parsed_response_body : Option Parsed
  response_body : Option Parsed
  response_headers : Option (List (String × String))

/-- The observable result of `_make_http_call` when it returns: final
status and message of the action result, the data records, the summary,
and the list of HTTP requests actually handed to `requests`. -/
structure CallResult where
  status : Status
  message : Option String
  data : List RespData
  summary : Option (Nat × String)
  sent : List SentRequest

/-- `_make_http_call` either returns or propagates an exception raised by
a handler; either way the requests already issued are recorded. -/
inductive CallOut where
  | ret (res : CallResult)
  | raised (exc : Uncaught) (sent : List SentRequest)

/-- The requests issued during one dispatch, whether it returned or
raised. -/
def CallOut.sentRequests : CallOut → List SentRequest
  | .ret res => res.sent
  | .raised _ s => s

/-- The network as an external collaborator: `requests.<method>` maps a
request to a response or raises a transport exception. -/
structure NetBehavior where
  send : SentRequest → Except PyExc HttpResponse

/-- The `elif self._username:` arm of `_make_http_call` (lines 271-272):
basic auth from username and configured password, headers untouched. -/
def resolve_basic (cfg : Config) (headers0 : Option Json) :
    Except Uncaught (Option Json × Option (String × String)) :=
  match cfg.username with
  | some u =>
      if u ≠ "" then .ok (headers0, some (u, cfg.password))
      else .ok (headers0, none)
  | none => .ok (headers0, none)

/-- The auth/header resolution prelude of `_make_http_call` (lines
265-272): with a truthy configured token, a falsy header mapping is
replaced by an empty dict and the token is injected under the configured
name unless that key is already present (the membership test and the
assignment follow Python dict semantics and can raise on non-dict
values); otherwise basic auth is derived from the username. -/
def resolve_auth_headers (cfg : Config) (headers0 : Option Json) :
    Except Uncaught (Option Json × Option (String × String)) :=
  match cfg.token with
  | some t =>
      if t ≠ "" then
        let hs : Json :=
          match headers0 with
          | none => Json.obj []
          | some h => if pyTruthy h then h else Json.obj []
        match pyInJson cfg.token_name hs with
        | .error u => .error u
        | .ok true => .ok (some hs, none)
        | .ok false =>
            match pySetItem hs cfg.token_name (.str t) with
            | .error u => .error u
            | .ok hs2 => .ok (some hs2, none)
      else resolve_basic cfg headers0
  | none => resolve_basic cfg headers0

/-- The method names `_verb` can pass (the source resolves them by
`getattr` on the `requests` module; these are the attributes the verb
handlers use). -/
def httpVerbs : List String := ["get", "post", "patch", "put", "delete", "head", "options"]

/-- `_make_http_call` (lines 263-317): resolve auth and headers, resolve
the request function, issue the request, short-circuit the `http_head`
action on status 200, classify the response, and assemble the result
record and summary.  A transport failure is caught; an exception escaping
a handler propagates. -/
def make_http_call (libs : Libs) (net : NetBehavior) (cfg : Config) (actionId : String)
    (endpoint : String) (method : String) (headers0 : Option Json) (verify : Bool)
    (data : Option String) : CallOut :=
  match resolve_auth_headers cfg headers0 with
  | .error u => .raised u []
  | .ok (headers, auth) =>
    if method ∈ httpVerbs then
      let url := cfg.base_url ++ endpoint
      let req : SentRequest :=
        { url := url, method := method, auth := auth, data := data, verify := verify,
          headers := headers, timeout := cfg.timeout }
      match net.send req with
      | .error e =>
          .ret { status := .error,
                 message := some ("Error Connecting to server. Details: " ++ get_error_message_from_exception e),
                 data := [], summary := none, sent := [req] }
      | .ok r =>
          if actionId = "http_head" ∧ r.status_code = 200 then
            .ret { status := .success, message := none, data := [], summary := none, sent := [req] }
          else
            match process_response libs r with
            | .raised u _ => .raised u [req]
            | .ret pres =>
                let rd : RespData :=
                  { method := upperStr method, location := url,
                    parsed_response_body := pres.body,
                    response_body :=
                      if pyIn "json" (contentTypeOf r) || pyIn "javascript" (contentTypeOf r) then
                        pres.body
                      else some (.text r.text),
                    response_headers := some r.headers }
                match pres.ret with
                | .error =>
                    .ret { status := .error, message := pres.message, data := [rd],
                           summary := some (r.status_code, r.reason), sent := [req] }
                | .success =>
                    .ret { status := .success, message := none, data := [rd],
                           summary := some (r.status_code, r.reason), sent := [req] }
    else
      .ret { status := .error, message := some ("Invalid method: " ++ method),
             data := [], summary := none, sent := [] }

/-! ## Header-mapping parsing and the verb operations -/

/-- The observable outcome of `_get_headers` (lines 319-338): returned
status, message recorded by `set_status`, and the parsed mapping (the
second `RetVal` component, `None` on both the absent and failure paths). -/
structure HeadersParse where
  ret : Status
  message : Option String
  parsed : Option Json

/-- `_get_headers`: absent headers succeed with no mapping; otherwise the
text must be valid JSON, a parse failure is recorded locally. -/
def get_headers (libs : Libs) (headers : Option String) : HeadersParse :=
  match headers with
  | none => { ret := .success, message := none, parsed := none }
  | some hs =>
      match libs.loads hs with
      | .error e =>
          { ret := .error,
            message := some ("Failed to parse headers as JSON object. error: "
                             ++ get_error_message_from_exception e ++ ", headers: " ++ hs),
            parsed := none }
      | .ok j => { ret := .success, message := none, parsed := some j }

/-- The action parameters of one verb operation. -/
structure VerbParam where
  location : String
  body : Option String := none
  headers : Option String := none
  verify_certificate : Bool := false

/-- `_verb` (lines 360-388): normalize the location to start with `/`,
parse the optional header mapping, and delegate to `_make_http_call`.
Note: the source never checks the status returned by `_get_headers`; the
dispatch proceeds even when header parsing failed (with `headers = None`),
and every return path of `_make_http_call` overwrites the action-result
status, so the header-parse failure message does not survive. -/
def verb (libs : Libs) (net : NetBehavior) (cfg : Config) (actionId : String)
    (param : VerbParam) (method : String) : CallOut :=
  let location := if pyStartsWith param.location "/" then param.location else "/" ++ param.location
  let gh := get_headers libs param.headers
  make_http_call libs net cfg actionId location method gh.parsed param.verify_certificate param.body

/-! ## Initialization: URL validation and loopback rejection -/

/-- The scheme and hostname components `urlparse` extracts from the base
URL; missing components (`None` / empty) are modelled by the empty
string, which is exactly what the falsiness tests of the source check. -/
structure ParsedUrl where
  scheme : String
  hostname : String

/-- The outcome of the URL-validation tail of `initialize`. -/
inductive InitOutcome where
  | ok
  | err (message : String)
deriving DecidableEq

/-- The `unpacked` address computed in `initialize` (lines 138-147): the
result of `socket.gethostbyname`, or the empty string when resolution
fails — under Python 3 the fallback `socket.inet_aton(packed)` is applied
to a bytes value and always raises a TypeError, so the inner handler
always yields the empty string. -/
def resolve_unpacked (ghbn : String → Except PyExc String) (addr : String) : String :=
  match ghbn addr with
  | .ok u => u
  | .error _ => ""

/-- The URL-validation tail of `initialize` (lines 130-152): reject a base
URL without scheme or hostname, then reject a hostname whose resolved
address starts with `127.`. -/
def initialize_url_check (ghbn : String → Except PyExc String) (base_url : String)
    (parsed : ParsedUrl) : InitOutcome :=
  if parsed.scheme = "" ∨ parsed.hostname = "" then
    .err ("Failed to parse URL (" ++ base_url ++ "). Should look like \"http(s)://location/optional_path\"")
  else if pyStartsWith (resolve_unpacked ghbn parsed.hostname) "127." then
    .err "Accessing 127.0.0.1 is not allowed"
  else .ok

/-! ## Helper lemmas -/

/-- The Python dict membership test agrees with association-list lookup:
some key of `fs` equals `k` exactly when the lookup finds a value. -/
theorem any_key_eq_lookup_isSome (fs : List (String × Json)) (k : String) :
    fs.any (fun p => p.1 == k) = (fs.lookup k).isSome := by
  induction fs with
  | nil => rfl
  | cons p t ih =>
    obtain ⟨pk, pv⟩ := p
    by_cases hpk : pk = k
    · subst hpk
      simp [List.lookup]
    · have h1 : (pk == k) = false := beq_eq_false_iff_ne.mpr hpk
      have h2 : (k == pk) = false := beq_eq_false_iff_ne.mpr (Ne.symm hpk)
      simp [List.lookup, h1, h2, ih]

/-- Exception values used in concrete instantiations of the external
parsers. -/
def excE : PyExc := .mk ["EC", "EM"]

/-- A fixed instantiation of the external libraries in which every parser
fails, used to discharge hypotheses at concrete inputs. -/
def trivLibs : Libs :=
  { jsonParse := fun _ => .error excE
  , xmlParse := fun _ => .error excE
  , soup := fun _ => .parsed ""
  , uq := fun s => s
  , loads := fun _ => .ok (.obj []) }

/-! ## Claim theorems -/

/-- C6 (counterexample): the generic fallback message of the error
normalizer reads `and|or` in the source, not `and/or` as the claim states:
on an exception with no positional arguments the produced string differs
from the one the claim names. -/
theorem C6_counterexample :
    (get_error_message_from_exception (.mk [])
      == "Error Code: Error code unavailable. Error Message: Unknown error occurred. Please check the asset configuration and/or action parameters.") = false := by
  decide

/-- C6 (amended): for every caught failure object the error normalizer
returns `Error Code: {code}. Error Message: {message}`: with two or more
positional detail values, code is the first and message the second; with
exactly one, code is `Error code unavailable` and message is that value;
with none, or when inspection itself fails, code is
`Error code unavailable` and message is `Unknown error occurred. Please
check the asset configuration and|or action parameters.` (with a literal
pipe); the routine is a total function, so no exception escapes it. -/
theorem C6_error_normalizer (a b : String) (rest : List String) :
    get_error_message_from_exception .argsRaise
      = "Error Code: Error code unavailable. Error Message: Unknown error occurred. Please check the asset configuration and|or action parameters."
  ∧ get_error_message_from_exception (.mk [])
      = "Error Code: Error code unavailable. Error Message: Unknown error occurred. Please check the asset configuration and|or action parameters."
  ∧ get_error_message_from_exception (.mk [a])
      = "Error Code: Error code unavailable. Error Message: " ++ a
  ∧ get_error_message_from_exception (.mk (a :: b :: rest))
      = "Error Code: " ++ a ++ ". Error Message: " ++ b :=
  ⟨rfl, rfl, rfl, rfl⟩

/-- C4: for every response routed to the XML branch whose body fails to
parse, and every response routed to the JSON branch whose body fails to
parse, classification yields failure regardless of the status code, with
message `Unable to parse XML response. Error: {normalized error}` or
`Unable to parse JSON response. Error: {normalized error}` respectively,
and no parsed body. -/
theorem C4_parse_failure_always_fails (libs : Libs) (r : HttpResponse) (e : PyExc) :
    (pyIn "xml" (contentTypeOf r) = true →
      libs.xmlParse r.text = .error e →
      process_response libs r =
        .ret { ret := .error,
               message := some ("Unable to parse XML response. Error: " ++ get_error_message_from_exception e),
               body := none })
  ∧ (pyIn "xml" (contentTypeOf r) = false →
      (pyIn "json" (contentTypeOf r) || pyIn "javascript" (contentTypeOf r)) = true →
      libs.jsonParse r.text = .error e →
      process_response libs r =
        .ret { ret := .error,
               message := some ("Unable to parse JSON response. Error: " ++ get_error_message_from_exception e),
               body := none }) := by
  constructor
  · intro hx hp
    simp [process_response, hx, process_xml_response, hp]
  · intro hx hj hp
    simp [process_response, hx, hj, process_json_response, hp]

/-- C8: with a well-formed base URL (non-empty scheme and hostname),
initialization fails with the loopback-rejection error exactly when the
hostname resolves to an address starting with `127.`; when resolution
fails, the host is treated as not loopback and the check succeeds. -/
theorem C8_loopback_rejection (ghbn : String → Except PyExc String) (base_url : String)
    (p : ParsedUrl) (hs : p.scheme ≠ "") (hh : p.hostname ≠ "") :
    (initialize_url_check ghbn base_url p = .err "Accessing 127.0.0.1 is not allowed"
       ↔ ∃ u, ghbn p.hostname = .ok u ∧ pyStartsWith u "127." = true)
  ∧ (∀ e, ghbn p.hostname = .error e → initialize_url_check ghbn base_url p = .ok) := by
  constructor
  · cases hg : ghbn p.hostname with
    | error e =>
        simp [initialize_url_check, resolve_unpacked, hs, hh, hg, pyStartsWith, charsLeadSeg]
    | ok u =>
        cases hsw : pyStartsWith u "127." <;>
          simp [initialize_url_check, resolve_unpacked, hs, hh, hg, hsw]
  · intro e hg
    simp [initialize_url_check, resolve_unpacked, hs, hh, hg, pyStartsWith, charsLeadSeg]

/-- C8 (witness): a hostname resolving to `127.0.0.5` is rejected with the
loopback error, at the concrete parsed URL `http://h`. -/
theorem C8_loopback_rejection_witness :
    (initialize_url_check (fun _ => .ok "127.0.0.5") "http://h" ⟨"http", "h"⟩
       = .err "Accessing 127.0.0.1 is not allowed"
     ↔ ∃ u, (fun _ : String => (.ok "127.0.0.5" : Except PyExc String)) "h" = .ok u
         ∧ pyStartsWith u "127." = true)
  ∧ (∀ e, (fun _ : String => (.ok "127.0.0.5" : Except PyExc String)) "h" = .error e →
      initialize_url_check (fun _ => .ok "127.0.0.5") "http://h" ⟨"http", "h"⟩ = .ok) :=
  C8_loopback_rejection (fun _ => .ok "127.0.0.5") "http://h" ⟨"http", "h"⟩
    (by decide) (by decide)

/-- C2: branch selection tests the Content-Type header by case-sensitive
substring match in the fixed order XML, then JSON/javascript, then HTML,
then empty body, then plain-text fallback; a response whose content type
contains `xml`, `json`, `javascript` or `html` is never routed through the
empty-body branch even when its body is empty — an empty XML/JSON-declared
body instead fails its parse step (the last two conjuncts, under the
hypothesis that the respective external parser rejects the empty
string). -/
theorem C2_branch_selection (libs : Libs) (r : HttpResponse) :
    (classifyContent (contentTypeOf r) r.text = .xml ↔ pyIn "xml" (contentTypeOf r) = true)
  ∧ (classifyContent (contentTypeOf r) r.text = .json ↔
       (pyIn "xml" (contentTypeOf r) = false ∧
        (pyIn "json" (contentTypeOf r) = true ∨ pyIn "javascript" (contentTypeOf r) = true)))
  ∧ (classifyContent (contentTypeOf r) r.text = .html ↔
       (pyIn "xml" (contentTypeOf r) = false ∧ pyIn "json" (contentTypeOf r) = false ∧
        pyIn "javascript" (contentTypeOf r) = false ∧ pyIn "html" (contentTypeOf r) = true))
  ∧ (classifyContent (contentTypeOf r) r.text = .empty ↔
       (pyIn "xml" (contentTypeOf r) = false ∧ pyIn "json" (contentTypeOf r) = false ∧
        pyIn "javascript" (contentTypeOf r) = false ∧ pyIn "html" (contentTypeOf r) = false ∧
        r.text = ""))
  ∧ ((pyIn "xml" (contentTypeOf r) = true ∨ pyIn "json" (contentTypeOf r) = true ∨
      pyIn "javascript" (contentTypeOf r) = true ∨ pyIn "html" (contentTypeOf r) = true) →
      classifyContent (contentTypeOf r) r.text ≠ .empty)
  ∧ (process_response libs r = dispatchByCategory libs r (classifyContent (contentTypeOf r) r.text))
  ∧ (∀ e, r.text = "" → classifyContent (contentTypeOf r) r.text = .json →
       libs.jsonParse "" = .error e →
       process_response libs r =
         .ret { ret := .error,
                message := some ("Unable to parse JSON response. Error: " ++ get_error_message_from_exception e),
                body := none })
  ∧ (∀ e, r.text = "" → classifyContent (contentTypeOf r) r.text = .xml →
       libs.xmlParse "" = .error e →
       process_response libs r =
         .ret { ret := .error,
                message := some ("Unable to parse XML response. Error: " ++ get_error_message_from_exception e),
                body := none }) := by
  cases hx : pyIn "xml" (contentTypeOf r) <;>
  cases hj : pyIn "json" (contentTypeOf r) <;>
  cases hjs : pyIn "javascript" (contentTypeOf r) <;>
  cases hh : pyIn "html" (contentTypeOf r) <;>
  by_cases ht : r.text = "" <;>
  simp_all [classifyContent, process_response, dispatchByCategory,
            process_json_response, process_xml_response]

/-- External-library behaviour for the C1 counterexample: the JSON body
`5` parses successfully to the number 5. -/
def C1badLibs : Libs :=
  { jsonParse := fun _ => .ok (.num 5)
  , xmlParse := fun _ => .error excE
  , soup := fun _ => .parsed ""
  , uq := fun s => s
  , loads := fun _ => .ok (.obj []) }

/-- C1 (counterexample): a JSON-declared response whose body `5` parses
successfully, with boundary status code 400, does not yield a failure
classification as the claim states: the membership test
`error in resp_json` raises a TypeError that escapes the handler, so
classification returns no outcome at all. -/
theorem C1_counterexample :
    process_response C1badLibs
        { status_code := 400, headers := [("Content-Type", "application/json")], text := "5" }
      = .raised .typeError none
  ∧ ∀ res : ProcResult,
      process_response C1badLibs
          { status_code := 400, headers := [("Content-Type", "application/json")], text := "5" }
        ≠ .ret res := by
  refine ⟨rfl, ?_⟩
  intro res h
  rw [show process_response C1badLibs
        { status_code := 400, headers := [("Content-Type", "application/json")], text := "5" }
      = .raised .typeError none from rfl] at h
  exact HandlerOut.noConfusion h

theorem process_empty_success_iff (r : HttpResponse) (res : ProcResult)
    (h : process_empty_reponse r = .ret res) :
    res.ret = .success ↔ (200 ≤ r.status_code ∧ r.status_code < 400) := by
  obtain ⟨rret, rmsg, rbody⟩ := res
  by_cases hr : 200 ≤ r.status_code ∧ r.status_code < 400 <;>
    simp [process_empty_reponse, hr] at h <;>
    obtain ⟨h1, h2, h3⟩ := h <;> subst h1 <;> simp [hr]

theorem process_plaintext_success_iff (r : HttpResponse) (res : ProcResult)
    (h : process_plaintext r = .ret res) :
    res.ret = .success ↔ (200 ≤ r.status_code ∧ r.status_code < 400) := by
  obtain ⟨rret, rmsg, rbody⟩ := res
  by_cases hr : 200 ≤ r.status_code ∧ r.status_code < 400 <;>
    simp [process_plaintext, hr] at h <;>
    obtain ⟨h1, h2, h3⟩ := h <;> subst h1 <;> simp [hr]

theorem process_html_success_iff (libs : Libs) (r : HttpResponse) (res : ProcResult)
    (h : process_html_response libs r = .ret res) :
    res.ret = .success ↔ (200 ≤ r.status_code ∧ r.status_code < 400) := by
  obtain ⟨rret, rmsg, rbody⟩ := res
  unfold process_html_response at h
  by_cases hr : 200 ≤ r.status_code ∧ r.status_code < 400 <;>
  cases hsoup : libs.soup r.text <;>
  simp [hsoup, hr] at h <;>
  obtain ⟨h1, h2, h3⟩ := h <;> subst h1 <;> simp [hr]

theorem process_xml_success_iff (libs : Libs) (r : HttpResponse) (res : ProcResult) (j : Json)
    (hp : libs.xmlParse r.text = .ok j)
    (h : process_xml_response libs r = .ret res) :
    res.ret = .success ↔ (200 ≤ r.status_code ∧ r.status_code < 400) := by
  obtain ⟨rret, rmsg, rbody⟩ := res
  unfold process_xml_response at h
  rw [hp] at h
  by_cases hr : 200 ≤ r.status_code ∧ r.status_code < 400 <;>
    simp [hr] at h <;>
    obtain ⟨h1, h2, h3⟩ := h <;> subst h1 <;> simp [hr]

theorem process_json_success_iff (libs : Libs) (r : HttpResponse) (res : ProcResult) (j : Json)
    (hp : libs.jsonParse r.text = .ok j)
    (h : process_json_response libs r = .ret res) :
    res.ret = .success ↔ (200 ≤ r.status_code ∧ r.status_code < 400) := by
  obtain ⟨rret, rmsg, rbody⟩ := res
  unfold process_json_response at h
  rw [hp] at h
  by_cases hr : 200 ≤ r.status_code ∧ r.status_code < 400
  · simp [hr] at h
    obtain ⟨h1, h2, h3⟩ := h
    subst h1
    simp [hr]
  · simp [hr] at h
    cases hq : pyInJson "error" j with
    | error u => rw [hq] at h; cases h
    | ok b =>
      rw [hq] at h
      cases b
      · simp at h
        obtain ⟨h1, h2, h3⟩ := h
        subst h1
        simp [hr]
      · cases hg : pyGetItem j "error" with
        | error u => simp [hg] at h
        | ok ef =>
            simp [hg] at h
            obtain ⟨h1, h2, h3⟩ := h
            subst h1
            simp [hr]

/-- C1 (amended): for every response on which the classifier returns an
outcome at all, and whose body the XML/JSON branch (when selected) parsed
successfully, classification yields success exactly when the status code
lies in [200,400); outside that range it yields failure.  (The amendment
excludes the responses on which a handler raises instead of returning: a
JSON-parsed non-mapping body with an out-of-range status, and an HTML body
on which the parser fails before binding its parse object.) -/
theorem C1_success_iff_status_in_range (libs : Libs) (r : HttpResponse) (res : ProcResult)
    (hret : process_response libs r = .ret res)
    (hxml : classifyContent (contentTypeOf r) r.text = .xml → ∃ j, libs.xmlParse r.text = .ok j)
    (hjson : classifyContent (contentTypeOf r) r.text = .json → ∃ j, libs.jsonParse r.text = .ok j) :
    res.ret = .success ↔ (200 ≤ r.status_code ∧ r.status_code < 400) := by
  unfold process_response at hret
  by_cases hx : pyIn "xml" (contentTypeOf r) = true
  · obtain ⟨j, hpj⟩ := hxml (by simp [classifyContent, hx])
    rw [if_pos hx] at hret
    exact process_xml_success_iff libs r res j hpj hret
  · have hx2 : pyIn "xml" (contentTypeOf r) = false := by simpa using hx
    rw [if_neg hx] at hret
    by_cases hj : (pyIn "json" (contentTypeOf r) || pyIn "javascript" (contentTypeOf r)) = true
    · obtain ⟨j, hpj⟩ := hjson (by simp [classifyContent, hx2, hj])
      rw [if_pos hj] at hret
      exact process_json_success_iff libs r res j hpj hret
    · rw [if_neg hj] at hret
      by_cases hh : pyIn "html" (contentTypeOf r) = true
      · rw [if_pos hh] at hret
        exact process_html_success_iff libs r res hret
      · rw [if_neg hh] at hret
        by_cases ht : r.text = ""
        · rw [if_pos ht] at hret
          exact process_empty_success_iff r res hret
        · rw [if_neg ht] at hret
          exact process_plaintext_success_iff r res hret

/-- C1 (witness): the amended biconditional applied at the boundary status
codes 200, 399 and 400 of an empty response with no content type. -/
theorem C1_success_iff_status_in_range_witness :
    (({ ret := .success, message := none, body := none } : ProcResult).ret = .success
       ↔ (200 ≤ (200 : Nat) ∧ (200 : Nat) < 400))
  ∧ (({ ret := .success, message := none, body := none } : ProcResult).ret = .success
       ↔ (200 ≤ (399 : Nat) ∧ (399 : Nat) < 400))
  ∧ (({ ret := .error, message := some "Empty response and no information in the header",
        body := none } : ProcResult).ret = .success
       ↔ (200 ≤ (400 : Nat) ∧ (400 : Nat) < 400)) :=
  ⟨C1_success_iff_status_in_range trivLibs { status_code := 200 } _ rfl
     (fun h => absurd h (by decide)) (fun h => absurd h (by decide)),
   C1_success_iff_status_in_range trivLibs { status_code := 399 } _ rfl
     (fun h => absurd h (by decide)) (fun h => absurd h (by decide)),
   C1_success_iff_status_in_range trivLibs { status_code := 400 } _ rfl
     (fun h => absurd h (by decide)) (fun h => absurd h (by decide))⟩

/-- External-library behaviour for the C5 counterexample: the JSON body
`7` parses successfully to the number 7. -/
def C5badLibs : Libs :=
  { jsonParse := fun _ => .ok (.num 7)
  , xmlParse := fun _ => .error excE
  , soup := fun _ => .parsed ""
  , uq := fun s => s
  , loads := fun _ => .ok (.obj []) }

/-- C5 (counterexample): a JSON response whose body `7` parses successfully
to a number, with status 500, has no `error` key, so the claim predicts a
failure message carrying the brace-escaped raw body; instead the
membership test `error in resp_json` raises a TypeError and the handler
returns no outcome at all. -/
theorem C5_counterexample :
    process_json_response C5badLibs
        { status_code := 500, headers := [("Content-Type", "application/json")], text := "7" }
      = .raised .typeError none
  ∧ ∀ res : ProcResult,
      process_json_response C5badLibs
          { status_code := 500, headers := [("Content-Type", "application/json")], text := "7" }
        ≠ .ret res := by
  refine ⟨rfl, ?_⟩
  intro res h
  rw [show process_json_response C5badLibs
        { status_code := 500, headers := [("Content-Type", "application/json")], text := "7" }
      = .raised .typeError none from rfl] at h
  exact HandlerOut.noConfusion h

/-- C5 (amended): for a JSON-declared response parsing successfully to a
mapping, with status outside [200,400): without an `error` key the failure
detail is the raw body text with braces doubled; with an `error` key whose
value is a mapping containing a `message` key, the detail is that nested
message; with an `error` key whose value is a mapping without a `message`
key, the detail is the whole error mapping (not a nested message field);
and with a non-mapping error value, the detail is that value itself —
each rendered through `str()`.  (Non-mapping parsed bodies are excluded:
on them the error-detail extraction can raise, see the counterexample.) -/
theorem C5_json_error_details (libs : Libs) (r : HttpResponse) (fs : List (String × Json))
    (hp : libs.jsonParse r.text = .ok (.obj fs))
    (hst : ¬(200 ≤ r.status_code ∧ r.status_code < 400)) :
    (fs.lookup "error" = none →
      process_json_response libs r =
        .ret { ret := .error,
               message := some (serverErrorMessage r.status_code (escapeBraces r.text)),
               body := some (.json (.obj fs)) })
  ∧ (∀ efs m, fs.lookup "error" = some (.obj efs) → efs.lookup "message" = some m →
      process_json_response libs r =
        .ret { ret := .error,
               message := some (serverErrorMessage r.status_code (pyStr m)),
               body := some (.json (.obj fs)) })
  ∧ (∀ efs, fs.lookup "error" = some (.obj efs) → efs.lookup "message" = none →
      process_json_response libs r =
        .ret { ret := .error,
               message := some (serverErrorMessage r.status_code (pyStr (.obj efs))),
               body := some (.json (.obj fs)) })
  ∧ (∀ ef, fs.lookup "error" = some ef → (∀ efs, ef ≠ Json.obj efs) →
      process_json_response libs r =
        .ret { ret := .error,
               message := some (serverErrorMessage r.status_code (pyStr ef)),
               body := some (.json (.obj fs)) }) := by
  have hany : fs.any (fun p => p.1 == "error") = (fs.lookup "error").isSome :=
    any_key_eq_lookup_isSome fs "error"
  refine ⟨?_, ?_, ?_, ?_⟩
  · intro hl
    simp [process_json_response, hp, hst, pyInJson, hany, hl]
  · intro efs m hl hm
    simp [process_json_response, hp, hst, pyInJson, hany, hl, pyGetItem, errorDetailOf, hm]
  · intro efs hl hm
    simp [process_json_response, hp, hst, pyInJson, hany, hl, pyGetItem, errorDetailOf, hm]
  · intro ef hl hne
    have hdet : errorDetailOf ef = pyStr ef := by
      cases ef <;> first | rfl | exact absurd rfl (hne _)
    simp [process_json_response, hp, hst, pyInJson, hany, hl, pyGetItem, hdet]

/-- External-library behaviour for the C5 witness: the body parses to the
mapping of scenario C of the spec. -/
def C5okLibs : Libs :=
  { jsonParse := fun _ => .ok (.obj [("error", .obj [("message", .str "bad token")])])
  , xmlParse := fun _ => .error excE
  , soup := fun _ => .parsed ""
  , uq := fun s => s
  , loads := fun _ => .ok (.obj []) }

/-- C5 (witness): a status-500 JSON response parsing to
`{"error": {"message": "bad token"}}` fails with the nested message as the
detail. -/
theorem C5_json_error_details_witness :
    process_json_response C5okLibs
        { status_code := 500, headers := [("Content-Type", "application/json")], text := "x" }
      = .ret { ret := .error,
               message := some (serverErrorMessage 500 (pyStr (.str "bad token"))),
               body := some (.json (.obj [("error", .obj [("message", .str "bad token")])])) } :=
  (C5_json_error_details C5okLibs
      { status_code := 500, headers := [("Content-Type", "application/json")], text := "x" }
      [("error", .obj [("message", .str "bad token")])] rfl (by decide)).2.1
    [("message", .str "bad token")] (.str "bad token") rfl rfl

/-- A falsy header mapping handed to the token-injection prelude is
replaced by an empty dict, so a dict-valued caller mapping always reaches
the membership test unchanged. -/
theorem obj_default_eq (fs : List (String × Json)) :
    (if pyTruthy (.obj fs) then Json.obj fs else Json.obj []) = .obj fs := by
  cases fs <;> simp [pyTruthy]

/-- C7: for every dispatched call, when an auth token is configured it is
injected under the configured token header name only when the caller did
not already supply a header of that name (a caller-supplied value is
preserved, not overwritten) and no basic auth is used; otherwise, with a
username configured, HTTP basic auth uses the username and configured
password; otherwise the call is unauthenticated — and the request actually
handed to the transport carries exactly the resolved headers and auth. -/
theorem C7_auth_resolution (libs : Libs) (net : NetBehavior) (cfg : Config)
    (actionId endpoint method : String) (headers0 : Option Json) (verify : Bool)
    (data : Option String) (t : String) (fs : List (String × Json)) :
    (cfg.token = some t → t ≠ "" →
       ((fs.any (fun p => p.1 == cfg.token_name) = true →
           resolve_auth_headers cfg (some (.obj fs)) = .ok (some (.obj fs), none))
        ∧ (fs.any (fun p => p.1 == cfg.token_name) = false →
           resolve_auth_headers cfg (some (.obj fs))
             = .ok (some (.obj (fs ++ [(cfg.token_name, .str t)])), none))
        ∧ resolve_auth_headers cfg none
             = .ok (some (.obj [(cfg.token_name, .str t)]), none)))
  ∧ (pyTruthyOptStr cfg.token = false →
       (∀ u, cfg.username = some u → u ≠ "" →
          resolve_auth_headers cfg headers0 = .ok (headers0, some (u, cfg.password)))
       ∧ (pyTruthyOptStr cfg.username = false →
          resolve_auth_headers cfg headers0 = .ok (headers0, none)))
  ∧ (∀ h a, resolve_auth_headers cfg headers0 = .ok (h, a) →
       ∀ req ∈ (make_http_call libs net cfg actionId endpoint method headers0 verify data).sentRequests,
         req.headers = h ∧ req.auth = a) := by
  refine ⟨?_, ?_, ?_⟩
  · intro htok hne
    refine ⟨?_, ?_, ?_⟩
    · intro h1
      simp [resolve_auth_headers, htok, hne, obj_default_eq, pyInJson, h1]
    · intro h1
      simp [resolve_auth_headers, htok, hne, obj_default_eq, pyInJson, h1, pySetItem]
    · simp [resolve_auth_headers, htok, hne, pyInJson, pySetItem]
  · intro htokF
    have hbasic : ∀ u, cfg.username = some u → u ≠ "" →
        resolve_basic cfg headers0 = .ok (headers0, some (u, cfg.password)) := by
      intro u hu hne
      simp [resolve_basic, hu, hne]
    have hbasicF : pyTruthyOptStr cfg.username = false →
        resolve_basic cfg headers0 = .ok (headers0, none) := by
      intro huF
      cases hu : cfg.username with
      | none => simp [resolve_basic, hu]
      | some u =>
          rw [hu] at huF
          simp [pyTruthyOptStr] at huF
          simp [resolve_basic, hu, huF]
    cases hc : cfg.token with
    | none => exact ⟨fun u hu hne => by
                simpa [resolve_auth_headers, hc] using hbasic u hu hne,
              fun huF => by simpa [resolve_auth_headers, hc] using hbasicF huF⟩
    | some t0 =>
        rw [hc] at htokF
        simp [pyTruthyOptStr] at htokF
        constructor
        · intro u hu hne
          simpa [resolve_auth_headers, hc, htokF] using hbasic u hu hne
        · intro huF
          simpa [resolve_auth_headers, hc, htokF] using hbasicF huF
  · intro h a hres req hreq
    unfold make_http_call at hreq
    by_cases hm : method ∈ httpVerbs
    · simp only [hres, hm, if_true, ite_true] at hreq
      revert hreq
      split
      · intro hreq
        simp [CallOut.sentRequests] at hreq
        subst hreq
        exact ⟨rfl, rfl⟩
      · split
        · intro hreq
          simp [CallOut.sentRequests] at hreq
          subst hreq
          exact ⟨rfl, rfl⟩
        · split
          · intro hreq
            simp [CallOut.sentRequests] at hreq
            subst hreq
            exact ⟨rfl, rfl⟩
          · split <;>
            · intro hreq
              simp [CallOut.sentRequests] at hreq
              subst hreq
              exact ⟨rfl, rfl⟩
    · simp only [hres, hm, if_false, ite_false] at hreq
      simp [CallOut.sentRequests] at hreq

/-- C10: for every call whose response declares a JSON/javascript content
type (and not XML) but whose body fails JSON parsing, the assembled result
record carries `none` in both `parsed_response_body` and `response_body`
(the raw response text is not recorded), even though the raw text on the
response is non-empty, and the overall status is failure with the
JSON-parse message. -/
theorem C10_json_parse_failure_body_null (libs : Libs) (net : NetBehavior) (cfg : Config)
    (actionId endpoint method : String) (headers0 : Option Json) (verify : Bool)
    (data : Option String) (hh : Option Json) (aa : Option (String × String))
    (r : HttpResponse) (e : PyExc)
    (hres : resolve_auth_headers cfg headers0 = .ok (hh, aa))
    (hm : method ∈ httpVerbs)
    (hsend : net.send { url := cfg.base_url ++ endpoint, method := method, auth := aa,
                        data := data, verify := verify, headers := hh,
                        timeout := cfg.timeout } = .ok r)
    (hnh : ¬(actionId = "http_head" ∧ r.status_code = 200))
    (hxml : pyIn "xml" (contentTypeOf r) = false)
    (hjson : (pyIn "json" (contentTypeOf r) || pyIn "javascript" (contentTypeOf r)) = true)
    (hparse : libs.jsonParse r.text = .error e)
    (htext : r.text ≠ "") :
    make_http_call libs net cfg actionId endpoint method headers0 verify data =
      .ret { status := .error,
             message := some ("Unable to parse JSON response. Error: " ++ get_error_message_from_exception e),
             data := [{ method := upperStr method, location := cfg.base_url ++ endpoint,
                        parsed_response_body := none, response_body := none,
                        response_headers := some r.headers }],
             summary := some (r.status_code, r.reason),
             sent := [{ url := cfg.base_url ++ endpoint, method := method, auth := aa,
                        data := data, verify := verify, headers := hh,
                        timeout := cfg.timeout }] } := by
  unfold make_http_call
  simp only [hres, hm, if_true, ite_true, hsend, hnh, if_false, ite_false,
             process_response, hxml, hjson, Bool.false_eq_true,
             process_json_response, hparse]

/-- Concrete network behaviour for the C10 witness: a status-500 response
declaring JSON whose body is not valid JSON. -/
def C10net : NetBehavior :=
  { send := fun _ => .ok { status_code := 500,
                           headers := [("Content-Type", "application/json")],
                           text := "oops", reason := "ERR" } }

/-- C10 (witness): the dispatched call of a `get` action against a JSON
response with unparseable body records null bodies in its result data. -/
theorem C10_json_parse_failure_body_null_witness :
    make_http_call trivLibs C10net { base_url := "http://h" } "http_get" "/x" "get" none false none =
      .ret { status := .error,
             message := some ("Unable to parse JSON response. Error: " ++ get_error_message_from_exception excE),
             data := [{ method := upperStr "get", location := "http://h" ++ "/x",
                        parsed_response_body := none, response_body := none,
                        response_headers := some [("Content-Type", "application/json")] }],
             summary := some (500, "ERR"),
             sent := [{ url := "http://h" ++ "/x", method := "get", auth := none,
                        data := none, verify := false, headers := none, timeout := none }] } :=
  C10_json_parse_failure_body_null trivLibs C10net { base_url := "http://h" } "http_get" "/x" "get"
    none false none none none
    { status_code := 500, headers := [("Content-Type", "application/json")], text := "oops", reason := "ERR" }
    excE rfl (by decide) rfl (by decide) (by decide) (by decide) rfl (by decide)

/-- External-library behaviour for the C3 evaluation: `json.loads` rejects
the header text. -/
def C3libs : Libs :=
  { jsonParse := fun _ => .error excE
  , xmlParse := fun _ => .error excE
  , soup := fun _ => .parsed ""
  , uq := fun s => s
  , loads := fun _ => .error excE }

/-- Network behaviour for the C3 evaluation: the server answers 200 with an
empty body. -/
def C3net : NetBehavior :=
  { send := fun _ => .ok { status_code := 200, headers := [], text := "", reason := "OK" } }

/-- C3 (code bug): with an invalid header-mapping text, `_get_headers`
records the local parse failure with the claimed message, but `_verb`
never checks the returned status: the HTTP request is still issued
(one request in `sent`) and the final result reflects the response — here
a success with no message — so the header failure is not reported and the
network call is not prevented. -/
theorem C3_header_failure_still_dispatches :
    get_headers C3libs (some "\x7bbad")
      = { ret := .error,
          message := some ("Failed to parse headers as JSON object. error: "
                           ++ get_error_message_from_exception excE ++ ", headers: \x7bbad"),
          parsed := none }
  ∧ verb C3libs C3net { base_url := "http://h" } "http_get"
        { location := "x", headers := some "\x7bbad" } "get"
      = .ret { status := .success, message := none,
               data := [{ method := "GET", location := "http://h/x",
                          parsed_response_body := none, response_body := some (.text ""),
                          response_headers := some [] }],
               summary := some (200, "OK"),
               sent := [{ url := "http://h/x", method := "get", auth := none, data := none,
                          verify := false, headers := none, timeout := none }] } :=
  ⟨rfl, rfl⟩

/-- External-library behaviour for the C9 evaluation: the `BeautifulSoup`
pipeline raises before binding `soup` (for example a RecursionError on
deeply nested markup inside the constructor). -/
def C9libs : Libs :=
  { jsonParse := fun _ => .error excE
  , xmlParse := fun _ => .error excE
  , soup := fun _ => .failBeforeBind
  , uq := fun s => s
  , loads := fun _ => .ok (.obj []) }

/-- C9 (code bug): on an HTML-declared status-500 response whose parse
fails before the soup object is bound, the handler records the failure
message containing `Cannot parse error details` via `set_status`, but then
raises a NameError reading `soup.text`, and that exception escapes the
HTML-processing routine instead of a normal failure return. -/
theorem C9_html_parse_failure_raises :
    process_html_response C9libs
        { status_code := 500, headers := [("Content-Type", "text/html")], text := "<x>" }
      = .raised .nameError (some "Status Code: 500. Data from server:\nCannot parse error details\n")
  ∧ process_response C9libs
        { status_code := 500, headers := [("Content-Type", "text/html")], text := "<x>" }
      = .raised .nameError (some "Status Code: 500. Data from server:\nCannot parse error details\n") :=
  ⟨rfl, rfl⟩

end HttpApp
